import Mathlib

/-!
Shallow embedding of the `tracing-rolling-file` crate (files `src/lib.rs` and
`src/base.rs`) and proofs about its rotation / rollover behaviour.

Modelling conventions:
* `chrono::DateTime<Local>` is modelled by its local wall-clock components
  (year/month/day/hour/minute/second); a fixed, consistent local time zone is
  assumed, under which two `DateTime` values built by `Local.ymd(..).and_hms(..)`
  are equal exactly when their components are equal.
* Filesystem and OS behaviour is an oracle `Env` supplying the outcome of each
  OS call (`flush`, `rename`, `open`, `create_dir_all`, `metadata`, `write_all`)
  made during a single appender call.
* `u64` quantities are `Nat` with an explicit `% 2 ^ 64` where the code performs
  `u64` arithmetic that can overflow.
* The buffered writer is modelled by its presence bit (`writer_open`, mirroring
  `writer_opt.is_some()`); buffered bytes themselves play no role in the claims.
-/

/-- Kind of an OS-level I/O error, mirroring the `io::ErrorKind` values the code
inspects (`NotFound` is the only kind treated specially; everything else is
lumped per kind with a tag to keep distinct errors distinguishable). -/
inductive ErrKind where
  | notFound
  | permissionDenied
  | otherKind
deriving DecidableEq, Repr

/-- An OS-level I/O error: a kind plus a tag distinguishing distinct errors of
the same kind (standing for the OS error payload/message). -/
structure OsError where
  kind : ErrKind
  tag : Nat
deriving DecidableEq, Repr

/-- An `io::Error` as observed from the appender: either an error returned by an
OS call, or the crate-constructed `Other` error with message
"unexpected condition: writer is missing" (a distinguished value, since it is
built by the crate itself and never returned by the OS oracle). -/
inductive IOErr where
  | os (e : OsError)
  | writerMissing
deriving DecidableEq, Repr

/-- A `chrono::DateTime<Local>` reduced to the local wall-clock components the
code reads (`year()`, `month()`, `day()`, `hour()`, `minute()`, `second()`). -/
structure LDateTime where
  year : Int
  month : Nat
  day : Nat
  hour : Nat
  minute : Nat
  second : Nat
deriving DecidableEq, Repr

/-- The frequency enum `RollingFrequency` from `src/lib.rs`. -/
inductive RollingFrequency where
  | EveryDay
  | EveryHour
  | EveryMinute
deriving DecidableEq, Repr

/-- Embedding of `RollingFrequency::equivalent_datetime` (`src/lib.rs` lines
52-62): truncates a datetime to the start of its day / hour / minute bucket. -/
def RollingFrequency.equivalent_datetime (f : RollingFrequency) (dt : LDateTime) : LDateTime :=
  match f with
  | RollingFrequency.EveryDay => ⟨dt.year, dt.month, dt.day, 0, 0, 0⟩
  | RollingFrequency.EveryHour => ⟨dt.year, dt.month, dt.day, dt.hour, 0, 0⟩
  | RollingFrequency.EveryMinute => ⟨dt.year, dt.month, dt.day, dt.hour, dt.minute, 0⟩

/-- The spec's bucket of a timestamp, written from the spec's words: Daily keeps
(year, month, day); Hourly keeps (year, month, day, hour); Minutely keeps
(year, month, day, hour, minute). Components the spec zeroes are omitted from
the tuple (a zeroed slot carries no information). -/
def bucket_spec (f : RollingFrequency) (dt : LDateTime) : Int × Nat × Nat × Nat × Nat :=
  match f with
  | RollingFrequency.EveryDay => (dt.year, dt.month, dt.day, 0, 0)
  | RollingFrequency.EveryHour => (dt.year, dt.month, dt.day, dt.hour, 0)
  | RollingFrequency.EveryMinute => (dt.year, dt.month, dt.day, dt.hour, dt.minute)

/-- The policy struct `RollingConditionBase` from `src/base.rs`: optional
last-decision timestamp, optional frequency, optional size threshold (`u64`,
modelled as `Nat`). -/
structure RollingConditionBase where
  last_write_opt : Option LDateTime
  frequency_opt : Option RollingFrequency
  max_size_opt : Option Nat
deriving DecidableEq, Repr

/-- Embedding of `RollingConditionBase::new` (`src/base.rs` lines 23-29). -/
def RollingConditionBase.new : RollingConditionBase :=
  ⟨none, none, none⟩

/-- Embedding of `RollingConditionBase::should_rollover` (`src/base.rs` lines
69-85). Returns the decision together with the updated condition state (the
Rust method mutates `self`; here the mutation is explicit state passing). -/
def RollingConditionBase.should_rollover (c : RollingConditionBase) (now : LDateTime)
    (current_filesize : Nat) : Bool × RollingConditionBase :=
  let rollover : Bool := false
  let rollover : Bool :=
    match c.frequency_opt with
    | some frequency =>
        match c.last_write_opt with
        | some last_write =>
            if frequency.equivalent_datetime now ≠ frequency.equivalent_datetime last_write then
              true
            else rollover
        | none => rollover
    | none => rollover
  let rollover : Bool :=
    match c.max_size_opt with
    | some max_size => if current_filesize ≥ max_size then true else rollover
    | none => rollover
  (rollover, { c with last_write_opt := some now })

/-- OS oracle for one appender call: the outcome each filesystem call would
produce if made during that call. `renameRes i` is the outcome of
`fs::rename(filename_for i, filename_for (i+1))`; `removeRes` the outcome of
`fs::remove_file` on the oldest slot (the code ignores it); `openRes` the first
`OpenOptions::open`, with `mkdirRes`/`openRes2` the `create_dir_all` fallback
and re-open; `statSize` the `metadata().len()` observation (`none` = stat
failed, mapped to 0 by the code); `flushRes` the `BufWriter::flush`; `writeRes`
the `write_all`. -/
structure Env where
  flushRes : Except OsError Unit
  removeRes : Except OsError Unit
  renameRes : Nat → Except OsError Unit
  openRes : Except OsError Unit
  hasParent : Bool
  mkdirRes : Except OsError Unit
  openRes2 : Except OsError Unit
  statSize : Option Nat
  writeRes : Except OsError Unit

/-- State of `RollingFileAppender` (`src/lib.rs` lines 70-79), specialised to
the crate's `RollingFileAppenderBase = RollingFileAppender<RollingConditionBase>`.
`writer_open` mirrors `writer_opt.is_some()`. -/
structure RollingFileAppender where
  condition : RollingConditionBase
  filename : String
  max_filecount : Nat
  current_filesize : Nat
  writer_open : Bool
deriving DecidableEq, Repr

/-- Embedding of `RollingFileAppender::filename_for` (`src/lib.rs` lines
102-109). -/
def filename_for (base : String) (n : Nat) : String :=
  if n > 0 then base ++ "." ++ toString n else base

/-- The `or_else(NotFound => Ok)` filtering inside the rotation loop
(`src/lib.rs` lines 120-123): a source-not-found rename error is ignored. -/
def rename_or_ignore_missing (res : Except OsError Unit) : Except OsError Unit :=
  match res with
  | Except.ok _ => Except.ok ()
  | Except.error e => if e.kind = ErrKind.notFound then Except.ok () else Except.error e

/-- One iteration of the rotation loop body (`src/lib.rs` lines 117-128): the
rename from `filename_for i` to `filename_for (i+1)` is attempted (recorded in
the trace), and a surviving error overwrites the captured result `r` while the
loop continues. -/
def rotate_step (base : String) (env : Env)
    (acc : Except IOErr Unit × List (String × String)) (i : Nat) :
    Except IOErr Unit × List (String × String) :=
  let attempted := acc.snd ++ [(filename_for base i, filename_for base (i + 1))]
  match rename_or_ignore_missing (env.renameRes i) with
  | Except.ok _ => (acc.fst, attempted)
  | Except.error e => (Except.error (IOErr.os e), attempted)

/-- What `rotate_files` did to the filesystem: the path handed to
`fs::remove_file`, and the `(from, to)` pairs handed to `fs::rename`, in
order. -/
structure RotateLog where
  removed : String
  attempted : List (String × String)
deriving DecidableEq, Repr

/-- Embedding of `RollingFileAppender::rotate_files` (`src/lib.rs` lines
113-130): remove the oldest slot (result ignored, so `env.removeRes` is never
read), then for `i` from `max(max_filecount,1) - 1` down to `0` attempt the
rename `base.i` → `base.(i+1)`, ignoring not-found and capturing any other
error in `r` without stopping; return the captured `r` together with the trace
of operations. -/
def rotate_files (base : String) (max_filecount : Nat) (env : Env) :
    Except IOErr Unit × RotateLog :=
  let acc := ((List.range (max max_filecount 1)).reverse).foldl (rotate_step base env)
    (Except.ok (), [])
  (acc.fst, RotateLog.mk (filename_for base (max max_filecount 1)) acc.snd)

/-- Embedding of the appender's `io::Write::flush` (`src/lib.rs` lines
202-207): flush the buffered writer when one is open, otherwise succeed; the
state is unchanged. -/
def appender_flush (env : Env) (a : RollingFileAppender) :
    Except IOErr Unit × RollingFileAppender :=
  if a.writer_open then
    match env.flushRes with
    | Except.ok _ => (Except.ok (), a)
    | Except.error e => (Except.error (IOErr.os e), a)
  else (Except.ok (), a)

/-- Embedding of `RollingFileAppender::open_writer_if_needed` (`src/lib.rs`
lines 144-164): when no writer is open, open `filename_for 0` in append/create
mode; on failure, if the path has a parent, `create_dir_all` it (propagating
failure) and re-open (propagating failure); on success install the writer and
set `current_filesize` from `metadata().map_or(0, len)`. -/
def open_writer_if_needed (env : Env) (a : RollingFileAppender) :
    Except IOErr Unit × RollingFileAppender :=
  if a.writer_open then (Except.ok (), a)
  else
    let opened : Except OsError Unit :=
      match env.openRes with
      | Except.ok _ => Except.ok ()
      | Except.error err =>
          if env.hasParent then
            match env.mkdirRes with
            | Except.error e => Except.error e
            | Except.ok _ => env.openRes2
          else Except.error err
    match opened with
    | Except.error e => (Except.error (IOErr.os e), a)
    | Except.ok _ =>
        (Except.ok (),
          { a with writer_open := true, current_filesize := env.statSize.getD 0 })

/-- Embedding of `RollingFileAppender::rollover` (`src/lib.rs` lines 133-141):
flush (propagating failure), drop the writer, zero `current_filesize`, then
`rotate_files()?` — note the `?`: a rotation error returns immediately —
and finally `open_writer_if_needed`. -/
def rollover (env : Env) (a : RollingFileAppender) :
    Except IOErr Unit × RollingFileAppender :=
  match appender_flush env a with
  | (Except.error e, a') => (Except.error e, a')
  | (Except.ok _, a') =>
      let a'' := { a' with writer_open := false, current_filesize := 0 }
      match (rotate_files a''.filename a''.max_filecount env).fst with
      | Except.error e => (Except.error e, a'')
      | Except.ok _ => open_writer_if_needed env a''

/-- Steps 1-2 of `write_with_datetime` (`src/lib.rs` lines 168-176): consult the
policy (which updates its state), and if it says to roll over, attempt the
rollover, swallowing a failure into a warning on the side channel (`eprintln`)
instead of propagating it. -/
def after_decision (env : Env) (a : RollingFileAppender) (now : LDateTime) :
    RollingFileAppender × Option IOErr :=
  let dec := a.condition.should_rollover now a.current_filesize
  let a₁ := { a with condition := dec.snd }
  if dec.fst then
    match rollover env a₁ with
    | (Except.ok _, a₂) => (a₂, none)
    | (Except.error e, a₂) => (a₂, some e)
  else (a₁, none)

/-- Result of one `write_with_datetime` call: the returned value, the final
appender state, and the warning emitted on the side channel (if any). -/
structure WriteOutcome where
  res : Except IOErr Nat
  state : RollingFileAppender
  warn : Option IOErr
deriving Repr

/-- Embedding of `RollingFileAppender::write_with_datetime` (`src/lib.rs` lines
167-190): after the policy decision and optional best-effort rollover, ensure a
writer is open (propagating failure), then `write_all` the buffer; on success
add `u64::try_from(buf_len).unwrap_or(u64::MAX)` to `current_filesize` (u64
arithmetic, hence the explicit `% 2 ^ 64`) and return `buf_len`; on failure
propagate. The `else` branch is the crate-made "writer is missing" error. -/
def write_with_datetime (env : Env) (a : RollingFileAppender) (buf_len : Nat)
    (now : LDateTime) : WriteOutcome :=
  let s := after_decision env a now
  match open_writer_if_needed env s.fst with
  | (Except.error e, a₂) => WriteOutcome.mk (Except.error e) a₂ s.snd
  | (Except.ok _, a₂) =>
      if a₂.writer_open then
        match env.writeRes with
        | Except.ok _ =>
            let add := if buf_len ≤ 2 ^ 64 - 1 then buf_len else 2 ^ 64 - 1
            WriteOutcome.mk (Except.ok buf_len)
              { a₂ with current_filesize := (a₂.current_filesize + add) % 2 ^ 64 } s.snd
        | Except.error e => WriteOutcome.mk (Except.error (IOErr.os e)) a₂ s.snd
      else WriteOutcome.mk (Except.error IOErr.writerMissing) a₂ s.snd

/-- The error a single rotation-loop iteration is left with after the
not-found filtering: `none` when the rename succeeded or its failure was
ignored. -/
def effective_rename_error (env : Env) (i : Nat) : Option OsError :=
  match rename_or_ignore_missing (env.renameRes i) with
  | Except.ok _ => none
  | Except.error e => some e

/-- The surviving rename errors of a whole `rotate_files` call, in the order
the loop encounters them (`i` descending). -/
def effective_rename_errors (max_filecount : Nat) (env : Env) : List OsError :=
  ((List.range (max max_filecount 1)).reverse).filterMap (effective_rename_error env)

/-- The capture-and-overwrite accumulation the loop performs on `r`: the result
is the error of the LAST failing iteration (or the initial value when none
fail). -/
def last_error : Except IOErr Unit → List OsError → Except IOErr Unit
  | r, [] => r
  | _, e :: rest => last_error (Except.error (IOErr.os e)) rest

/-- Modelled from the spec: "reports the first such error to the caller" — the
result keeps the FIRST surviving error in encounter order. -/
def first_error : Except IOErr Unit → List OsError → Except IOErr Unit
  | r, [] => r
  | _, e :: _ => Except.error (IOErr.os e)

/-- Concrete environment for the C1 counterexample: with two retained files,
the rename `base.1 → base.2` fails with one error and the rename
`base → base.1` fails with a different one. -/
def envC1 : Env where
  flushRes := Except.ok ()
  removeRes := Except.ok ()
  renameRes := fun i =>
    if i = 1 then Except.error (OsError.mk ErrKind.otherKind 1)
    else if i = 0 then Except.error (OsError.mk ErrKind.permissionDenied 2)
    else Except.ok ()
  openRes := Except.ok ()
  hasParent := true
  mkdirRes := Except.ok ()
  openRes2 := Except.ok ()
  statSize := some 0
  writeRes := Except.ok ()

/-- Benign environment: every OS call succeeds, the reopened file is empty. -/
def envOk : Env where
  flushRes := Except.ok ()
  removeRes := Except.ok ()
  renameRes := fun _ => Except.ok ()
  openRes := Except.ok ()
  hasParent := true
  mkdirRes := Except.ok ()
  openRes2 := Except.ok ()
  statSize := some 0
  writeRes := Except.ok ()

/-- Appender with no condition configured, writer closed, for the C10 witness. -/
def aC10 : RollingFileAppender :=
  RollingFileAppender.mk RollingConditionBase.new "base" 3 0 false

/-- Environment for C2/C3: the rename `base → base.1` fails with a permission
error; everything else (flush, open, write) would succeed. -/
def envC2 : Env where
  flushRes := Except.ok ()
  removeRes := Except.ok ()
  renameRes := fun i =>
    if i = 0 then Except.error (OsError.mk ErrKind.permissionDenied 2) else Except.ok ()
  openRes := Except.ok ()
  hasParent := true
  mkdirRes := Except.ok ()
  openRes2 := Except.ok ()
  statSize := some 0
  writeRes := Except.ok ()

/-- Appender state for C2: open writer, two retained files, 5 bytes written. -/
def aC2 : RollingFileAppender :=
  RollingFileAppender.mk RollingConditionBase.new "base" 2 5 true

/-- Appender for the C3 witness: size threshold 0 (so the policy always says
to roll over), one retained file, writer open. -/
def aC3 : RollingFileAppender :=
  RollingFileAppender.mk (RollingConditionBase.mk none none (some 0)) "base" 1 0 true

/-- Appender for the C4 witness: no condition configured, writer already open,
5 bytes in the current file. -/
def aC4 : RollingFileAppender :=
  RollingFileAppender.mk RollingConditionBase.new "b" 3 5 true

/-- Environment for the C4 failure branch: `write_all` fails. -/
def envC4bad : Env where
  flushRes := Except.ok ()
  removeRes := Except.ok ()
  renameRes := fun _ => Except.ok ()
  openRes := Except.ok ()
  hasParent := true
  mkdirRes := Except.ok ()
  openRes2 := Except.ok ()
  statSize := some 0
  writeRes := Except.error (OsError.mk ErrKind.otherKind 9)

theorem rotate_foldl_fst (base : String) (env : Env) (l : List Nat) :
    ∀ (r : Except IOErr Unit) (t : List (String × String)),
      (l.foldl (rotate_step base env) (r, t)).fst
        = last_error r (l.filterMap (effective_rename_error env)) := by
  induction l with
  | nil => intro r t; rfl
  | cons i l ih =>
      intro r t
      cases h : rename_or_ignore_missing (env.renameRes i) with
      | ok _ =>
          simp only [List.foldl_cons, List.filterMap_cons, effective_rename_error, h]
          have : rotate_step base env (r, t) i
              = (r, t ++ [(filename_for base i, filename_for base (i + 1))]) := by
            simp [rotate_step, h]
          rw [this]
          exact ih r _
      | error e =>
          simp only [List.foldl_cons, List.filterMap_cons, effective_rename_error, h]
          have : rotate_step base env (r, t) i
              = (Except.error (IOErr.os e), t ++ [(filename_for base i, filename_for base (i + 1))]) := by
            simp [rotate_step, h]
          rw [this]
          exact ih _ _

theorem rotate_foldl_snd (base : String) (env : Env) (l : List Nat) :
    ∀ (r : Except IOErr Unit) (t : List (String × String)),
      (l.foldl (rotate_step base env) (r, t)).snd
        = t ++ l.map (fun i => (filename_for base i, filename_for base (i + 1))) := by
  induction l with
  | nil => intro r t; simp
  | cons i l ih =>
      intro r t
      cases h : rename_or_ignore_missing (env.renameRes i) with
      | ok _ =>
          simp only [List.foldl_cons, List.map_cons]
          have : rotate_step base env (r, t) i
              = (r, t ++ [(filename_for base i, filename_for base (i + 1))]) := by
            simp [rotate_step, h]
          rw [this, ih]
          simp
      | error e =>
          simp only [List.foldl_cons, List.map_cons]
          have : rotate_step base env (r, t) i
              = (Except.error (IOErr.os e), t ++ [(filename_for base i, filename_for base (i + 1))]) := by
            simp [rotate_step, h]
          rw [this, ih]
          simp

theorem open_writer_ok_writer_open (env : Env) (a : RollingFileAppender)
    (h : (open_writer_if_needed env a).fst = Except.ok ()) :
    (open_writer_if_needed env a).snd.writer_open = true := by
  cases ha : a.writer_open <;>
    cases ho : env.openRes <;>
      cases hp : env.hasParent <;>
        cases hm : env.mkdirRes <;>
          cases h2 : env.openRes2 <;>
            simp_all [open_writer_if_needed]

theorem open_writer_err_os (env : Env) (a : RollingFileAppender) (e : IOErr)
    (h : (open_writer_if_needed env a).fst = Except.error e) :
    ∃ u, e = IOErr.os u := by
  cases ha : a.writer_open <;>
    cases ho : env.openRes <;>
      cases hp : env.hasParent <;>
        cases hm : env.mkdirRes <;>
          cases h2 : env.openRes2 <;>
            simp_all [open_writer_if_needed] <;> exact ⟨_, h.symm⟩

/-- C1 (amended): every rename step of the rotation chain is attempted, in
order `i = max(max_filecount,1)-1` down to `0`, regardless of earlier
failures; and when renames fail with surviving (non-not-found) errors, the
value `rotate_files` returns is the LAST such error encountered (the original
claim says the first; the loop overwrites its captured error each time). -/
theorem rotate_files_attempts_all_reports_last (base : String) (max_filecount : Nat)
    (env : Env) :
    (rotate_files base max_filecount env).snd.attempted
        = ((List.range (max max_filecount 1)).reverse).map
            (fun i => (filename_for base i, filename_for base (i + 1)))
    ∧ (rotate_files base max_filecount env).fst
        = last_error (Except.ok ()) (effective_rename_errors max_filecount env) := by
  constructor
  · have := rotate_foldl_snd base env ((List.range (max max_filecount 1)).reverse)
      (Except.ok ()) []
    simpa [rotate_files] using this
  · have := rotate_foldl_fst base env ((List.range (max max_filecount 1)).reverse)
      (Except.ok ()) []
    simpa [rotate_files, effective_rename_errors] using this

/-- C1 counterexample: in `envC1` the loop first encounters the error of the
`base.1 → base.2` rename, but `rotate_files` returns the error of the later
`base → base.1` rename — the last encountered, not the first. -/
theorem rotate_files_not_first_error :
    first_error (Except.ok ()) (effective_rename_errors 2 envC1)
        = Except.error (IOErr.os (OsError.mk ErrKind.otherKind 1))
    ∧ (rotate_files "base" 2 envC1).fst
        = Except.error (IOErr.os (OsError.mk ErrKind.permissionDenied 2))
    ∧ (rotate_files "base" 2 envC1).fst
        ≠ first_error (Except.ok ()) (effective_rename_errors 2 envC1) := by
  refine ⟨rfl, rfl, ?_⟩
  intro h
  rw [show (rotate_files "base" 2 envC1).fst
        = Except.error (IOErr.os (OsError.mk ErrKind.permissionDenied 2)) from rfl,
      show first_error (Except.ok ()) (effective_rename_errors 2 envC1)
        = Except.error (IOErr.os (OsError.mk ErrKind.otherKind 1)) from rfl] at h
  simp at h

/-- C2 (amended): when rotation fails with a surviving error, `rollover` (after
a successful flush) returns that error immediately — the `?` on
`rotate_files()` — leaving the writer closed and `current_filesize` zeroed; it
does not proceed to reopen the file. (The original claim says the call still
reopens a fresh file at `base` before reporting the error.) -/
theorem rollover_stops_on_rotate_error (env : Env) (a : RollingFileAppender) (e : IOErr)
    (hflush : env.flushRes = Except.ok ())
    (hrot : (rotate_files a.filename a.max_filecount env).fst = Except.error e) :
    rollover env a
      = (Except.error e, { a with writer_open := false, current_filesize := 0 }) := by
  have hfl : appender_flush env a = (Except.ok (), a) := by
    cases ha : a.writer_open <;> simp [appender_flush, ha, hflush]
  unfold rollover
  rw [hfl]
  dsimp only
  rw [hrot]

/-- C2 witness: the amended theorem at `envC2`/`aC2`. -/
theorem rollover_stops_on_rotate_error_witness :
    rollover envC2 aC2
      = (Except.error (IOErr.os (OsError.mk ErrKind.permissionDenied 2)),
         { aC2 with writer_open := false, current_filesize := 0 }) :=
  rollover_stops_on_rotate_error envC2 aC2
    (IOErr.os (OsError.mk ErrKind.permissionDenied 2)) rfl rfl

/-- C2 counterexample: in `envC2` (where reopening `base` would succeed),
`rollover` reports the rotation error with the writer still closed — it never
reached the reopen step, contradicting the claim that it reopens a fresh file
at `base` before reporting the recorded error. -/
theorem rollover_no_reopen_counterexample :
    (rollover envC2 aC2).fst = Except.error (IOErr.os (OsError.mk ErrKind.permissionDenied 2))
    ∧ (rollover envC2 aC2).snd.writer_open = false
    ∧ (open_writer_if_needed envC2 (rollover envC2 aC2).snd).fst = Except.ok () :=
  ⟨rfl, rfl, rfl⟩

/-- C3: when the policy decides a rollover and the internally-triggered
rollover fails, `write_with_datetime` does not return the rollover error: the
error goes to the side channel (the `eprintln` warning) and, provided the
subsequent reopen and the write of the buffer succeed, the call returns the
byte count. -/
theorem write_swallows_rollover_error (env : Env) (a : RollingFileAppender)
    (buf_len : Nat) (now : LDateTime) (e : IOErr)
    (hdec : (a.condition.should_rollover now a.current_filesize).fst = true)
    (hroll : (rollover env
        { a with condition := (a.condition.should_rollover now a.current_filesize).snd }).fst
      = Except.error e)
    (hopen : (open_writer_if_needed env (after_decision env a now).fst).fst = Except.ok ())
    (hwrite : env.writeRes = Except.ok ()) :
    (write_with_datetime env a buf_len now).res = Except.ok buf_len
    ∧ (write_with_datetime env a buf_len now).warn = some e := by
  have hs : after_decision env a now
      = ((rollover env
            { a with condition := (a.condition.should_rollover now a.current_filesize).snd }).snd,
         some e) := by
    unfold after_decision
    dsimp only
    rw [hdec]
    have hpair : rollover env
        { a with condition := (a.condition.should_rollover now a.current_filesize).snd }
        = (Except.error e,
           (rollover env
             { a with
               condition := (a.condition.should_rollover now a.current_filesize).snd }).snd) := by
      rw [← hroll]
    rw [if_pos rfl, hpair]
  unfold write_with_datetime
  dsimp only
  cases hop : open_writer_if_needed env (after_decision env a now).fst with
  | mk r a₂ =>
      have hr : r = Except.ok () := by rw [hop] at hopen; exact hopen
      subst hr
      have hw : a₂.writer_open = true := by
        have h2 := open_writer_ok_writer_open env (after_decision env a now).fst (by rw [hop])
        rw [hop] at h2
        exact h2
      simp [hw, hwrite, hs]

/-- C3 witness: in `envC2` the rotation rename fails, yet the concrete write of
5 bytes returns `Ok 5` and the rename error appears as the warning. -/
theorem write_swallows_rollover_error_witness :
    (write_with_datetime envC2 aC3 5 ⟨2021, 3, 30, 1, 2, 3⟩).res = Except.ok 5
    ∧ (write_with_datetime envC2 aC3 5 ⟨2021, 3, 30, 1, 2, 3⟩).warn
        = some (IOErr.os (OsError.mk ErrKind.permissionDenied 2)) :=
  write_swallows_rollover_error envC2 aC3 5 ⟨2021, 3, 30, 1, 2, 3⟩
    (IOErr.os (OsError.mk ErrKind.permissionDenied 2)) rfl rfl rfl rfl

/-- C4: once the writer is open (state `m` after the decision/reopen phase), a
successful `write_all` returns the buffer length and advances
`current_filesize` by exactly that length, while a failed `write_all`
propagates the OS error and leaves `current_filesize` (and the whole state)
unchanged. -/
theorem write_size_accounting (env : Env) (a : RollingFileAppender) (buf_len : Nat)
    (now : LDateTime) (m : RollingFileAppender)
    (hmid : open_writer_if_needed env (after_decision env a now).fst = (Except.ok (), m))
    (hfit : m.current_filesize + buf_len < 2 ^ 64) :
    (env.writeRes = Except.ok () →
      write_with_datetime env a buf_len now
        = WriteOutcome.mk (Except.ok buf_len)
            { m with current_filesize := m.current_filesize + buf_len }
            (after_decision env a now).snd)
    ∧ ∀ er, env.writeRes = Except.error er →
        write_with_datetime env a buf_len now
          = WriteOutcome.mk (Except.error (IOErr.os er)) m (after_decision env a now).snd := by
  have hw : m.writer_open = true := by
    have h2 := open_writer_ok_writer_open env (after_decision env a now).fst
      (by rw [hmid])
    rw [hmid] at h2
    exact h2
  have hle : buf_len ≤ 2 ^ 64 - 1 := by omega
  constructor
  · intro hwr
    unfold write_with_datetime
    dsimp only
    rw [hmid]
    dsimp only
    rw [hw, if_pos rfl, hwr]
    dsimp only
    rw [if_pos hle]
    rw [Nat.mod_eq_of_lt hfit]
  · intro er hwr
    unfold write_with_datetime
    dsimp only
    rw [hmid]
    dsimp only
    rw [hw, if_pos rfl, hwr]

/-- C4 witness: a successful 3-byte write on `aC4` returns `Ok 3` and moves the
size from 5 to 8; a failing write propagates the error and leaves the size at
5. -/
theorem write_size_accounting_witness :
    write_with_datetime envOk aC4 3 ⟨2021, 3, 30, 1, 2, 3⟩
      = WriteOutcome.mk (Except.ok 3)
          (RollingFileAppender.mk
            (RollingConditionBase.mk (some ⟨2021, 3, 30, 1, 2, 3⟩) none none) "b" 3 8 true)
          none
    ∧ write_with_datetime envC4bad aC4 3 ⟨2021, 3, 30, 1, 2, 3⟩
      = WriteOutcome.mk (Except.error (IOErr.os (OsError.mk ErrKind.otherKind 9)))
          (RollingFileAppender.mk
            (RollingConditionBase.mk (some ⟨2021, 3, 30, 1, 2, 3⟩) none none) "b" 3 5 true)
          none := by
  constructor
  · have h := (write_size_accounting envOk aC4 3 ⟨2021, 3, 30, 1, 2, 3⟩
      ((after_decision envOk aC4 ⟨2021, 3, 30, 1, 2, 3⟩).fst) rfl (by decide)).1 rfl
    exact h
  · have h := (write_size_accounting envC4bad aC4 3 ⟨2021, 3, 30, 1, 2, 3⟩
      ((after_decision envC4bad aC4 ⟨2021, 3, 30, 1, 2, 3⟩).fst) rfl (by decide)).2
      (OsError.mk ErrKind.otherKind 9) rfl
    exact h

/-- C5: for a size-only policy with threshold `T`, `should_rollover` decides
`true` iff `current_size ≥ T` (for every timestamp and every prior history);
and when a frequency is additionally configured, `current_size ≥ T` alone
forces the decision to `true` regardless of the frequency comparison. -/
theorem should_rollover_size_threshold (T : Nat) (last : Option LDateTime)
    (now : LDateTime) (size : Nat) :
    (((RollingConditionBase.mk last none (some T)).should_rollover now size).fst = true ↔ T ≤ size)
    ∧ (∀ f : RollingFrequency, T ≤ size →
        ((RollingConditionBase.mk last (some f) (some T)).should_rollover now size).fst = true) := by
  constructor
  · by_cases h : T ≤ size
    · simp [RollingConditionBase.should_rollover, h]
    · simp [RollingConditionBase.should_rollover, h]
  · intro f h
    simp [RollingConditionBase.should_rollover, h]

/-- C5 witness: concrete policy with both a frequency and threshold 4, size 7. -/
theorem should_rollover_size_threshold_witness :
    ((RollingConditionBase.mk none (some RollingFrequency.EveryDay) (some 4)).should_rollover
      ⟨2021, 3, 30, 1, 2, 3⟩ 7).fst = true :=
  (should_rollover_size_threshold 4 none ⟨2021, 3, 30, 1, 2, 3⟩ 7).2
    RollingFrequency.EveryDay (by decide)

/-- C6: `equivalent_datetime` truncates per frequency exactly as the spec's
bucketing describes (Daily keeps year/month/day and zeroes the rest, Hourly
additionally keeps the hour, Minutely additionally keeps the minute), and two
timestamps are judged to be in the same bucket — i.e. their
`equivalent_datetime` values are equal, which is the comparison
`should_rollover` performs — exactly when their spec-side truncated
representations are equal. -/
theorem equivalent_datetime_bucket :
    (∀ dt : LDateTime,
        RollingFrequency.EveryDay.equivalent_datetime dt = ⟨dt.year, dt.month, dt.day, 0, 0, 0⟩
        ∧ RollingFrequency.EveryHour.equivalent_datetime dt
            = ⟨dt.year, dt.month, dt.day, dt.hour, 0, 0⟩
        ∧ RollingFrequency.EveryMinute.equivalent_datetime dt
            = ⟨dt.year, dt.month, dt.day, dt.hour, dt.minute, 0⟩)
    ∧ (∀ (f : RollingFrequency) (a b : LDateTime),
        f.equivalent_datetime a = f.equivalent_datetime b ↔ bucket_spec f a = bucket_spec f b)
    ∧ (∀ (f : RollingFrequency) (lw now : LDateTime) (size : Nat),
        ((RollingConditionBase.mk (some lw) (some f) none).should_rollover now size).fst = false
          ↔ bucket_spec f now = bucket_spec f lw) := by
  refine ⟨fun dt => ⟨rfl, rfl, rfl⟩, fun f a b => ?_, fun f lw now size => ?_⟩
  · cases f <;>
      simp [RollingFrequency.equivalent_datetime, bucket_spec, LDateTime.mk.injEq, Prod.ext_iff,
        and_assoc]
  · rw [show ((RollingConditionBase.mk (some lw) (some f) none).should_rollover now size).fst
        = decide (¬ f.equivalent_datetime now = f.equivalent_datetime lw) from ?_]
    · simp only [decide_eq_false_iff_not, not_not]
      cases f <;>
        simp [RollingFrequency.equivalent_datetime, bucket_spec, LDateTime.mk.injEq, Prod.ext_iff,
          and_assoc]
    · by_cases h : f.equivalent_datetime now = f.equivalent_datetime lw <;>
        simp [RollingConditionBase.should_rollover, h]

/-- C7: with a frequency configured but no previous decision timestamp yet (the
very first call), and the size threshold absent or not met, `should_rollover`
decides `false`: frequency alone never triggers rotation on the first call. -/
theorem should_rollover_first_call_frequency (f : RollingFrequency) (ms : Option Nat)
    (now : LDateTime) (size : Nat) (h : ∀ T, ms = some T → size < T) :
    ((RollingConditionBase.mk none (some f) ms).should_rollover now size).fst = false := by
  cases ms with
  | none => simp [RollingConditionBase.should_rollover]
  | some T =>
      have hT : size < T := h T rfl
      simp [RollingConditionBase.should_rollover, Nat.not_le.mpr hT]

/-- C7 witness: first call on a daily policy with threshold 10 and size 3. -/
theorem should_rollover_first_call_frequency_witness :
    ((RollingConditionBase.mk none (some RollingFrequency.EveryDay) (some 10)).should_rollover
      ⟨2021, 3, 30, 1, 2, 3⟩ 3).fst = false :=
  should_rollover_first_call_frequency RollingFrequency.EveryDay (some 10)
    ⟨2021, 3, 30, 1, 2, 3⟩ 3 (by intro T hT; cases hT; decide)

/-- C8: every `should_rollover` call, on every configuration (first call
included, and regardless of the decision), records `now` as the new
last-decision timestamp and changes nothing else in the policy state. -/
theorem should_rollover_records_timestamp (c : RollingConditionBase) (now : LDateTime)
    (size : Nat) :
    (c.should_rollover now size).snd = { c with last_write_opt := some now } := rfl

/-- C9: with `max_retained_files = 0` rotation behaves exactly as with 1: the
whole `rotate_files` result (outcome and filesystem trace) coincides, the
deletion step targets `base.1`, and the single rename attempted is
`base → base.1`, so one historical slot always exists. -/
theorem rotate_files_zero_as_one (base : String) (env : Env) :
    rotate_files base 0 env = rotate_files base 1 env
    ∧ (rotate_files base 0 env).snd.removed = filename_for base 1
    ∧ (rotate_files base 0 env).snd.attempted = [(filename_for base 0, filename_for base 1)]
    ∧ filename_for base 0 = base := by
  refine ⟨rfl, rfl, ?_, rfl⟩
  have := rotate_foldl_snd base env ((List.range (max 0 1)).reverse) (Except.ok ()) []
  simpa [rotate_files] using this

/-- C10: `open_writer_if_needed` leaves a writer installed whenever it returns
`Ok`, so the "unexpected condition: writer is missing" branch of
`write_with_datetime` is unreachable: no call ever returns that error. -/
theorem write_never_writer_missing :
    (∀ (env : Env) (a : RollingFileAppender),
        (open_writer_if_needed env a).fst = Except.ok () →
          (open_writer_if_needed env a).snd.writer_open = true)
    ∧ ∀ (env : Env) (a : RollingFileAppender) (buf_len : Nat) (now : LDateTime),
        (write_with_datetime env a buf_len now).res ≠ Except.error IOErr.writerMissing := by
  refine ⟨fun env a h => open_writer_ok_writer_open env a h, ?_⟩
  intro env a buf_len now
  unfold write_with_datetime
  dsimp only
  cases hop : open_writer_if_needed env (after_decision env a now).fst with
  | mk r a₂ =>
      cases r with
      | error e =>
          obtain ⟨u, hu⟩ := open_writer_err_os env (after_decision env a now).fst e
            (by rw [hop])
          subst hu
          simp
      | ok _ =>
          have hw : a₂.writer_open = true := by
            have := open_writer_ok_writer_open env (after_decision env a now).fst
              (by rw [hop])
            rw [hop] at this
            exact this
          cases hwr : env.writeRes <;> simp [hw, hwr]

/-- C10 witness: concrete open succeeding on a closed writer, and a concrete
write call. -/
theorem write_never_writer_missing_witness :
    (open_writer_if_needed envOk aC10).snd.writer_open = true
    ∧ (write_with_datetime envOk aC10 7 ⟨2021, 3, 30, 1, 2, 3⟩).res
        ≠ Except.error IOErr.writerMissing :=
  ⟨write_never_writer_missing.1 envOk aC10 rfl,
   write_never_writer_missing.2 envOk aC10 7 ⟨2021, 3, 30, 1, 2, 3⟩⟩
